import Mathlib

/-!
Shallow embedding of the gandiv5-acme-operator charm
(`src/charm.py` composed with `lib/charms/acme_client_operator/v0/acme_client.py`).

The charm reacts to Juju events; we model the unit status, the side effects
of a certificate-creation request as an explicit event trace, and the external
collaborators (leadership, container reachability, the lego subprocess and the
container filesystem) as explicit parameters.  Machine-level exceptions
(KeyError from dict indexing, ValueError from `_cmd`, pathError from
`container.pull`) are modelled with `Option`: `none` means the Python code
would raise.
-/

/-- Operational unit status, mirroring `ops.model`'s
ActiveStatus / BlockedStatus / WaitingStatus / MaintenanceStatus
(the code only ever constructs `ActiveStatus()` without a message). -/
inductive Status where
  | Active : Status
  | Blocked (message : String) : Status
  | Waiting (message : String) : Status
  | Maintenance (message : String) : Status
deriving DecidableEq, Repr

/-- One observable side effect of the charm code: a unit-status assignment,
a CSR push into the workload container, an invocation of the lego command
(with its argument vector and environment), a certificate publication on the
tls-certificates relation, or an `event.defer()` call. -/
inductive Event where
  | setStatus (s : Status) : Event
  | pushCSR (path : String) (content : String) : Event
  | execLego (cmd : List String) (env : List (String × Option String)) : Event
  | publishCerts (certificate : String) (ca : String) (chain : List String)
      (relationId : Int) : Event
  | deferEvent : Event
deriving DecidableEq, Repr

/-- Charm configuration: each option is `none` when unset
(Python `self.model.config.get(key)` returning `None`). -/
structure GandiConfig where
  email : Option String
  server : Option String
  gandi_api_key : Option String
  gandi_http_timeout : Option String
  gandi_polling_interval : Option String
  gandi_propagation_timeout : Option String
  gandi_ttl : Option String
deriving DecidableEq, Repr

/-- Python truthiness of an optional string: `None` and `""` are falsy. -/
def optTruthy : Option String → Bool
  | none => false
  | some s => !s.isEmpty

/-- Models `AcmeClient._email_is_valid`: Python
`re.match(r"[^@]+@[^@]+\.[^@]+", email)` succeeds, i.e. some prefix of the
string decomposes as one-or-more non-at chars, at sign, one-or-more non-at
chars, a dot, and at least one further non-at char. -/
def emailIsValid (email : String) : Bool :=
  let l := email.toList
  (List.range l.length).any fun i =>
    (List.range l.length).any fun j =>
      decide (1 ≤ i) && decide (i + 2 ≤ j) && decide (j + 1 < l.length) &&
      (l.getD i ' ' == '@') && (l.getD j ' ' == '.') &&
      (l.getD (j + 1) ' ' != '@') &&
      (l.take i).all (fun c => c != '@') &&
      ((l.drop (i + 1)).take (j - i - 1)).all (fun c => c != '@')

/-- Characters allowed in a URL scheme by `urllib.parse`
(ASCII letters, digits, `+`, `-`, `.`). -/
def isSchemeChar (c : Char) : Bool :=
  c.isAlpha || c.isDigit || c == '+' || c == '-' || c == '.'

/-- Models the scheme extraction of `urllib.parse.urlparse` (for URLs without
embedded control characters): if the first colon is preceded by a nonempty
run of scheme characters starting with a letter, that run (lowercased) is the
scheme and the rest follows the colon; otherwise the scheme is empty. -/
def splitScheme (l : List Char) : List Char × List Char :=
  match l.findIdx? (· == ':') with
  | some i =>
    if 0 < i && (l.headD ' ').isAlpha && (l.take i).all isSchemeChar then
      ((l.take i).map Char.toLower, l.drop (i + 1))
    else ([], l)
  | none => ([], l)

/-- Models the netloc extraction of `urllib.parse.urlparse`: if the remainder
after the scheme starts with `//`, the netloc runs up to the next `/`, `?`
or `#`; otherwise it is empty. -/
def extractNetloc (l : List Char) : List Char :=
  match l with
  | '/' :: '/' :: rest => rest.takeWhile (fun c => c != '/' && c != '?' && c != '#')
  | _ => []

/-- Models `AcmeClient._server_is_valid`: `urlparse(server)` yields truthy
(nonempty) `scheme` and `netloc`. -/
def serverIsValid (server : String) : Bool :=
  let p := splitScheme server.toList
  !p.1.isEmpty && !(extractNetloc p.2).isEmpty

/-- Models `AcmeClient.validate_generic_acme_config`: returns the boolean
result together with the status assignments it performs (at most one). -/
def validateGenericAcmeConfig (cfg : GandiConfig) : Bool × List Event :=
  if !optTruthy cfg.email then
    (false, [Event.setStatus (Status.Blocked "Email address was not provided")])
  else if !optTruthy cfg.server then
    (false, [Event.setStatus (Status.Blocked "ACME server was not provided")])
  else if !emailIsValid (cfg.email.getD "") then
    (false, [Event.setStatus (Status.Blocked "Invalid email address")])
  else if !serverIsValid (cfg.server.getD "") then
    (false, [Event.setStatus (Status.Blocked "Invalid ACME server")])
  else
    (true, [])

/-- Models `GandiLiveDNSVersion5AcmeOperatorCharm._plugin_config`: an ordered
mapping (dict) whose first entry is always `GANDIV5_API_KEY` bound to the raw,
possibly unset, `gandi_api_key` value; truthy optional settings are appended. -/
def pluginConfig (cfg : GandiConfig) : List (String × Option String) :=
  [("GANDIV5_API_KEY", cfg.gandi_api_key)]
  ++ (if optTruthy cfg.gandi_http_timeout then
        [("GANDIV5_HTTP_TIMEOUT", cfg.gandi_http_timeout)] else [])
  ++ (if optTruthy cfg.gandi_polling_interval then
        [("GANDIV5_POLLING_INTERVAL", cfg.gandi_polling_interval)] else [])
  ++ (if optTruthy cfg.gandi_propagation_timeout then
        [("GANDIV5_PROPAGATION_TIMEOUT", cfg.gandi_propagation_timeout)] else [])
  ++ (if optTruthy cfg.gandi_ttl then
        [("GANDIV5_TTL", cfg.gandi_ttl)] else [])

/-- Models `GandiLiveDNSVersion5AcmeOperatorCharm.REQUIRED_CONFIG`. -/
def requiredConfig : List String := ["GANDIV5_API_KEY"]

/-- Dictionary indexing `d[k]`: `none` models a Python `KeyError`. -/
def dictGet (d : List (String × Option String)) (k : String) : Option (Option String) :=
  (d.find? (fun p => p.1 == k)).map (fun p => p.2)

/-- The list comprehension
`[option for option in required if not plugin_config[option]]`,
with `none` modelling a `KeyError` raised by the indexing. -/
def missingOf (d : List (String × Option String)) : List String → Option (List String)
  | [] => some []
  | k :: ks =>
    match dictGet d k, missingOf d ks with
    | some v, some rest => some (if optTruthy v then rest else k :: rest)
    | _, _ => none

/-- The `missing_config` list computed by `_validate_gandi_livedns_config`. -/
def missingConfig (cfg : GandiConfig) : Option (List String) :=
  missingOf (pluginConfig cfg) requiredConfig

/-- Models `GandiLiveDNSVersion5AcmeOperatorCharm._validate_gandi_livedns_config`:
boolean result plus status assignments; `none` models an escaping exception. -/
def validateGandiLivednsConfig (cfg : GandiConfig) : Option (Bool × List Event) :=
  match missingConfig cfg with
  | none => none
  | some [] => some (true, [])
  | some missing =>
    some (false, [Event.setStatus (Status.Blocked
      ("The following config options must be set: " ++ String.intercalate ", " missing))])

/-- Models `GandiLiveDNSVersion5AcmeOperatorCharm._on_config_changed`:
provider validation, then generic validation, then Active; the returned
trace records every status assignment performed. -/
def onConfigChanged (cfg : GandiConfig) : Option (List Event) :=
  match validateGandiLivednsConfig cfg with
  | none => none
  | some (false, evs) => some evs
  | some (true, evs) =>
    let r := validateGenericAcmeConfig cfg
    if r.1 then some (evs ++ r.2 ++ [Event.setStatus Status.Active])
    else some (evs ++ r.2)

/-- The unit status after a trace of events, starting from `init`
(the last `setStatus` wins; other events leave the status alone). -/
def statusAfter (init : Status) (evs : List Event) : Status :=
  evs.foldl (fun s e => match e with | Event.setStatus s' => s' | _ => s) init

/-- Models `AcmeClient.__init__`: `self._csr_path`. -/
def csrPath : String := "/tmp/csr.pem"

/-- Models `AcmeClient.__init__`: `self._certs_path`. -/
def certsPath : String := "/tmp/.lego/certificates/"

/-- Models the `AcmeClient._cmd` property for the gandiv5 plugin; `none`
models the `ValueError` raised when email or server is falsy. -/
def legoCmd (cfg : GandiConfig) : Option (List String) :=
  if !optTruthy cfg.email then none
  else if !optTruthy cfg.server then none
  else some ["lego", "--email", cfg.email.getD "", "--accept-tos", "--csr",
    csrPath, "--server", cfg.server.getD "", "--dns", "gandiv5", "run"]

/-- Scanner for Python `str.split("\n\n")`: `acc` holds the reversed characters
of the block being built; every occurrence of two consecutive newlines closes
the current block (Python keeps empty pieces, including trailing ones). -/
def splitNNGo : List Char → List Char → List (List Char)
  | [], acc => [acc.reverse]
  | '\n' :: '\n' :: rest, acc => acc.reverse :: splitNNGo rest []
  | c :: rest, acc => splitNNGo rest (c :: acc)

/-- Models Python `content.split("\n\n")` as used by
`_pull_certificates_from_workload`. -/
def splitDoubleNewline (content : String) : List String :=
  (splitNNGo content.toList []).map (fun cs => String.mk cs)

/-- Joins blocks back with a blank line between consecutive blocks
(the inverse direction of `splitDoubleNewline`). -/
def joinDoubleNewline : List String → String
  | [] => ""
  | [b] => b
  | b :: bs => b ++ "\n\n" ++ joinDoubleNewline bs

/-- Models `AcmeClient._pull_certificates_from_workload`: pull the file at
`certsPath ++ subject ++ ".crt"` from the container filesystem `files`
(`none` models the `PathError` when the file is absent) and split its
content on `"\n\n"`. -/
def pullCertificatesFromWorkload (files : String → Option String)
    (csrSubject : String) : Option (List String) :=
  match files (certsPath ++ csrSubject ++ ".crt") with
  | none => none
  | some content => some (splitDoubleNewline content)

/-- Models `AcmeClient._on_certificate_creation_request` for the gandiv5
charm, as the trace of side effects it performs.  External collaborators
appear as parameters: `isLeader` (`self.unit.is_leader()`), `canConnect`
(`self._container.can_connect()`), `csrSubject` (the common name the
cryptography library extracts from the CSR), `legoSucceeds` (the outcome of
`_execute_lego_cmd`), `files` (the container filesystem).  `none` models an
escaping Python exception. -/
def certCreationRequest (cfg : GandiConfig) (init : Status)
    (isLeader canConnect : Bool) (csr : String) (csrSubject : String)
    (legoSucceeds : Bool) (files : String → Option String)
    (relationId : Int) : Option (List Event) :=
  match onConfigChanged cfg with
  | none => none
  | some evs0 =>
    if statusAfter init evs0 ≠ Status.Active then
      some (evs0 ++ [Event.deferEvent])
    else if !isLeader then
      some evs0
    else if !canConnect then
      some (evs0 ++ [Event.setStatus (Status.Waiting "Waiting for container to be ready"),
        Event.deferEvent])
    else if csrSubject.length > 64 then
      some (evs0 ++ [Event.setStatus (Status.Blocked
        ("Subject is too long (> 64 characters): " ++ csrSubject))])
    else
      match legoCmd cfg with
      | none => none
      | some cmd =>
        let evs1 := evs0 ++ [Event.pushCSR csrPath csr,
          Event.setStatus (Status.Maintenance "Executing lego command"),
          Event.execLego cmd (pluginConfig cfg)]
        if !legoSucceeds then
          some (evs1 ++ [Event.setStatus (Status.Blocked
            "Workload command execution failed, use `juju debug-log` for more information.")])
        else
          match pullCertificatesFromWorkload files csrSubject with
          | none => none
          | some certs =>
            some (evs1 ++ [Event.publishCerts (certs.headD "") (certs.getLastD "")
              certs.reverse relationId,
              Event.setStatus Status.Active])

/-- The event is a CSR push. -/
def isPushEvent : Event → Bool
  | Event.pushCSR _ _ => true
  | _ => false

/-- The event is a lego invocation. -/
def isExecEvent : Event → Bool
  | Event.execLego _ _ => true
  | _ => false

/-- The event is a certificate publication. -/
def isPublishEvent : Event → Bool
  | Event.publishCerts _ _ _ _ => true
  | _ => false

/-- The event is an `event.defer()` call. -/
def isDeferEvent : Event → Bool
  | Event.deferEvent => true
  | _ => false

/-- The event sets a Maintenance status. -/
def isMaintenanceEvent : Event → Bool
  | Event.setStatus (Status.Maintenance _) => true
  | _ => false

/-- All validation checks of `_on_config_changed` pass (provider key set,
email and server present and well formed). -/
def configValid (cfg : GandiConfig) : Bool :=
  optTruthy cfg.gandi_api_key && optTruthy cfg.email && optTruthy cfg.server &&
  emailIsValid (cfg.email.getD "") && serverIsValid (cfg.server.getD "")

/-- A concrete configuration on which every validation check passes. -/
def demoCfg : GandiConfig :=
  ⟨some "a@b.cd", some "https://x.ab", some "apikey", none, none, none, none⟩

/-- A concrete configuration with the required provider key unset. -/
def invalidCfg : GandiConfig :=
  ⟨some "a@b.cd", some "https://x.ab", none, none, none, none, none⟩

/-- A concrete configuration whose email does not match the validation regex. -/
def invalidEmailCfg : GandiConfig :=
  ⟨some "invalid-email", some "https://x.ab", some "apikey", none, none, none, none⟩

/-- A concrete container filesystem holding one three-block certificate chain. -/
def demoFiles : String → Option String := fun p =>
  if p = "/tmp/.lego/certificates/example.com.crt" then
    some "LEAF\n\nMIDDLE\n\nROOT"
  else none

/-- The trace the handler produces on `demoCfg`/`demoFiles` when everything
succeeds. -/
def demoTrace : List Event :=
  [Event.setStatus Status.Active,
    Event.pushCSR "/tmp/csr.pem" "CSRPEM",
    Event.setStatus (Status.Maintenance "Executing lego command"),
    Event.execLego ["lego", "--email", "a@b.cd", "--accept-tos", "--csr",
      "/tmp/csr.pem", "--server", "https://x.ab", "--dns", "gandiv5", "run"]
      [("GANDIV5_API_KEY", some "apikey")],
    Event.publishCerts "LEAF" "ROOT" ["ROOT", "MIDDLE", "LEAF"] 7,
    Event.setStatus Status.Active]

/-- A concrete subject of 65 characters, one over the protocol bound. -/
def longSubject : String := String.mk (List.replicate 65 'a')

/-- A concrete container filesystem whose certificate file ends in a blank
line, so the split produces an empty trailing block. -/
def trailingFiles : String → Option String := fun p =>
  if p = "/tmp/.lego/certificates/example.org.crt" then some "CERTA\n\n" else none

/-!
Helper lemmas shared by the claim theorems.
-/

theorem splitNNGo_ne_nil (l acc : List Char) : splitNNGo l acc ≠ [] := by
  induction l, acc using splitNNGo.induct with
  | case1 acc => simp [splitNNGo]
  | case2 rest acc ih => simp [splitNNGo]
  | case3 c rest acc h ih => simpa [splitNNGo] using ih

theorem string_mk_append (a b : List Char) :
    String.mk a ++ String.mk b = String.mk (a ++ b) := rfl

theorem joinNN_splitNNGo (l acc : List Char) :
    joinDoubleNewline ((splitNNGo l acc).map String.mk) =
      String.mk (acc.reverse ++ l) := by
  induction l, acc using splitNNGo.induct with
  | case1 acc => simp [splitNNGo, joinDoubleNewline]
  | case2 rest acc ih =>
    obtain ⟨b, bs, hb⟩ : ∃ b bs, splitNNGo rest [] = b :: bs := by
      cases hsp : splitNNGo rest [] with
      | nil => exact absurd hsp (splitNNGo_ne_nil rest [])
      | cons b bs => exact ⟨b, bs, rfl⟩
    simp only [splitNNGo, hb, List.map_cons, joinDoubleNewline]
    rw [← List.map_cons, ← hb, ih]
    simp only [List.reverse_nil, List.nil_append]
    rw [show ("\n\n" : String) = String.mk ['\n', '\n'] from rfl,
      string_mk_append, string_mk_append]
    simp [List.append_assoc]
  | case3 c rest acc h ih =>
    simp only [splitNNGo] at *
    rw [ih]
    simp [List.append_assoc]

theorem splitDoubleNewline_ne_nil (content : String) :
    splitDoubleNewline content ≠ [] := by
  intro hc
  have hne := splitNNGo_ne_nil content.toList []
  simp only [splitDoubleNewline, List.map_eq_nil_iff] at hc
  exact hne hc

theorem dictGet_apiKey (cfg : GandiConfig) :
    dictGet (pluginConfig cfg) "GANDIV5_API_KEY" = some cfg.gandi_api_key := by
  simp [dictGet, pluginConfig, List.find?]

theorem missingConfig_eq (cfg : GandiConfig) :
    missingConfig cfg =
      some (if optTruthy cfg.gandi_api_key then [] else ["GANDIV5_API_KEY"]) := by
  simp [missingConfig, requiredConfig, missingOf, dictGet_apiKey]

theorem onConfigChanged_of_valid (cfg : GandiConfig) (h : configValid cfg = true) :
    onConfigChanged cfg = some [Event.setStatus Status.Active] := by
  simp only [configValid, Bool.and_eq_true] at h
  obtain ⟨⟨⟨⟨h1, h2⟩, h3⟩, h4⟩, h5⟩ := h
  simp [onConfigChanged, validateGandiLivednsConfig, missingConfig_eq,
    validateGenericAcmeConfig, h1, h2, h3, h4, h5]

theorem legoCmd_of_valid (cfg : GandiConfig) (h : configValid cfg = true) :
    legoCmd cfg = some ["lego", "--email", cfg.email.getD "", "--accept-tos",
      "--csr", csrPath, "--server", cfg.server.getD "", "--dns", "gandiv5", "run"] := by
  simp only [configValid, Bool.and_eq_true] at h
  obtain ⟨⟨⟨⟨h1, h2⟩, h3⟩, h4⟩, h5⟩ := h
  simp [legoCmd, h2, h3]

theorem validateGandi_events (cfg : GandiConfig) (b : Bool) (evs : List Event)
    (h : validateGandiLivednsConfig cfg = some (b, evs)) :
    ∀ e ∈ evs, ∃ s, e = Event.setStatus s := by
  intro e he
  unfold validateGandiLivednsConfig at h
  split at h
  · cases h
  · simp_all
  · simp only [Option.some.injEq, Prod.mk.injEq] at h
    obtain ⟨hb, hevs⟩ := h
    subst hevs
    simp only [List.mem_singleton] at he
    exact ⟨_, he⟩

theorem validateGeneric_events (cfg : GandiConfig) :
    ∀ e ∈ (validateGenericAcmeConfig cfg).2, ∃ s, e = Event.setStatus s := by
  intro e he
  cases h1 : optTruthy cfg.email <;> cases h2 : optTruthy cfg.server <;>
    cases h3 : emailIsValid (cfg.email.getD "") <;>
    cases h4 : serverIsValid (cfg.server.getD "") <;>
    simp_all [validateGenericAcmeConfig]

theorem onConfigChanged_events (cfg : GandiConfig) (evs : List Event)
    (h : onConfigChanged cfg = some evs) :
    ∀ e ∈ evs, ∃ s, e = Event.setStatus s := by
  intro e he
  unfold onConfigChanged at h
  cases hv : validateGandiLivednsConfig cfg with
  | none => rw [hv] at h; cases h
  | some p =>
    obtain ⟨b, evs0⟩ := p
    rw [hv] at h
    cases b with
    | false =>
      simp at h
      subst h
      exact validateGandi_events cfg false evs0 hv e he
    | true =>
      by_cases hr : (validateGenericAcmeConfig cfg).1 = true
      · simp [hr] at h
        subst h
        rcases List.mem_append.mp he with h1 | h2
        · exact validateGandi_events cfg true evs0 hv e h1
        · rcases List.mem_append.mp h2 with h3 | h4
          · exact validateGeneric_events cfg e h3
          · simp at h4
            exact ⟨Status.Active, h4⟩
      · simp [hr] at h
        subst h
        rcases List.mem_append.mp he with h1 | h2
        · exact validateGandi_events cfg true evs0 hv e h1
        · exact validateGeneric_events cfg e h2

theorem reverse_headD (l : List String) :
    l.reverse.headD "" = l.getLastD "" := by
  rw [List.headD_eq_head?, List.head?_reverse, List.getLastD_eq_getLast?]

theorem reverse_getLastD (l : List String) :
    l.reverse.getLastD "" = l.headD "" := by
  rw [List.getLastD_eq_getLast?, List.getLast?_reverse, List.headD_eq_head?]

/-!
Claim theorems.
-/

/-- Claim C1: on the leader, with valid config and reachable container, a
creation request whose CSR subject exceeds 64 characters ends with a Blocked
status whose message contains the offending subject; the trace contains no
lego invocation and no deferral (and no publication). -/
theorem creation_request_blocks_oversized_subject
    (cfg : GandiConfig) (init : Status) (csr csrSubject : String)
    (legoSucceeds : Bool) (files : String → Option String) (relationId : Int)
    (hvalid : configValid cfg = true) (hlen : csrSubject.length > 64) :
    ∃ m, certCreationRequest cfg init true true csr csrSubject legoSucceeds files relationId =
        some [Event.setStatus Status.Active, Event.setStatus (Status.Blocked m)] ∧
      (∃ p, m = p ++ csrSubject) ∧
      statusAfter init [Event.setStatus Status.Active, Event.setStatus (Status.Blocked m)] =
        Status.Blocked m ∧
      ([Event.setStatus Status.Active, Event.setStatus (Status.Blocked m)].all
        (fun e => !(isExecEvent e || isDeferEvent e || isPublishEvent e))) = true := by
  refine ⟨"Subject is too long (> 64 characters): " ++ csrSubject, ?_,
    ⟨"Subject is too long (> 64 characters): ", rfl⟩, rfl, rfl⟩
  simp [certCreationRequest, onConfigChanged_of_valid cfg hvalid, statusAfter, hlen]

/-- Witness for C1 at a concrete valid configuration and a 65-character
subject. -/
theorem creation_request_blocks_oversized_subject_witness :
    configValid demoCfg = true ∧ longSubject.length > 64 ∧
    (∃ m, certCreationRequest demoCfg Status.Active true true "CSRPEM" longSubject true demoFiles 1 =
        some [Event.setStatus Status.Active, Event.setStatus (Status.Blocked m)] ∧
      (∃ p, m = p ++ longSubject) ∧
      statusAfter Status.Active [Event.setStatus Status.Active, Event.setStatus (Status.Blocked m)] =
        Status.Blocked m ∧
      ([Event.setStatus Status.Active, Event.setStatus (Status.Blocked m)].all
        (fun e => !(isExecEvent e || isDeferEvent e || isPublishEvent e))) = true) :=
  ⟨by decide, by decide,
    creation_request_blocks_oversized_subject demoCfg Status.Active "CSRPEM" longSubject
      true demoFiles 1 (by decide) (by decide)⟩

/-- Claim C2: on the successful path the handler publishes
certificate = first pulled block, ca = last pulled block and
chain = the pulled sequence reversed, so the published chain starts with the
ca (the last block of the original order) and ends with the leaf. -/
theorem creation_request_publishes_reversed_chain
    (cfg : GandiConfig) (init : Status) (csr csrSubject : String)
    (files : String → Option String) (content : String) (relationId : Int)
    (hvalid : configValid cfg = true) (hlen : csrSubject.length ≤ 64)
    (hfile : files (certsPath ++ csrSubject ++ ".crt") = some content) :
    ∃ blocks, pullCertificatesFromWorkload files csrSubject = some blocks ∧
      blocks ≠ [] ∧
      certCreationRequest cfg init true true csr csrSubject true files relationId =
        some [Event.setStatus Status.Active,
          Event.pushCSR csrPath csr,
          Event.setStatus (Status.Maintenance "Executing lego command"),
          Event.execLego ["lego", "--email", cfg.email.getD "", "--accept-tos",
            "--csr", csrPath, "--server", cfg.server.getD "", "--dns", "gandiv5", "run"]
            (pluginConfig cfg),
          Event.publishCerts (blocks.headD "") (blocks.getLastD "") blocks.reverse relationId,
          Event.setStatus Status.Active] ∧
      blocks.reverse.headD "" = blocks.getLastD "" ∧
      blocks.reverse.getLastD "" = blocks.headD "" := by
  refine ⟨splitDoubleNewline content, by simp [pullCertificatesFromWorkload, hfile],
    splitDoubleNewline_ne_nil content, ?_, reverse_headD _, reverse_getLastD _⟩
  simp [certCreationRequest, onConfigChanged_of_valid cfg hvalid, statusAfter,
    legoCmd_of_valid cfg hvalid, Nat.not_lt.mpr hlen,
    pullCertificatesFromWorkload, hfile]

/-- Witness for C2 at a concrete three-block chain. -/
theorem creation_request_publishes_reversed_chain_witness :
    configValid demoCfg = true ∧ ("example.com" : String).length ≤ 64 ∧
    demoFiles (certsPath ++ "example.com" ++ ".crt") = some "LEAF\n\nMIDDLE\n\nROOT" ∧
    (∃ blocks, pullCertificatesFromWorkload demoFiles "example.com" = some blocks ∧
      blocks ≠ [] ∧
      certCreationRequest demoCfg Status.Active true true "CSRPEM" "example.com" true demoFiles 7 =
        some [Event.setStatus Status.Active,
          Event.pushCSR csrPath "CSRPEM",
          Event.setStatus (Status.Maintenance "Executing lego command"),
          Event.execLego ["lego", "--email", demoCfg.email.getD "", "--accept-tos",
            "--csr", csrPath, "--server", demoCfg.server.getD "", "--dns", "gandiv5", "run"]
            (pluginConfig demoCfg),
          Event.publishCerts (blocks.headD "") (blocks.getLastD "") blocks.reverse 7,
          Event.setStatus Status.Active] ∧
      blocks.reverse.headD "" = blocks.getLastD "" ∧
      blocks.reverse.getLastD "" = blocks.headD "") :=
  ⟨by decide, by decide, by decide,
    creation_request_publishes_reversed_chain demoCfg Status.Active "CSRPEM" "example.com"
      demoFiles "LEAF\n\nMIDDLE\n\nROOT" 7 (by decide) (by decide) (by decide)⟩

/-- Claim C3: `validate_generic_acme_config` checks email presence, server
presence, email format and server URL-validity in that order, short-circuiting
on the first failure; each failure sets one of four distinct Blocked messages
and returns false, and the result is true exactly when all four checks pass
(in which case no status is set). -/
theorem validate_generic_acme_config_check_order (cfg : GandiConfig) :
    ((validateGenericAcmeConfig cfg).1 = true ↔
      optTruthy cfg.email = true ∧ optTruthy cfg.server = true ∧
      emailIsValid (cfg.email.getD "") = true ∧ serverIsValid (cfg.server.getD "") = true) ∧
    (optTruthy cfg.email = false →
      validateGenericAcmeConfig cfg =
        (false, [Event.setStatus (Status.Blocked "Email address was not provided")])) ∧
    (optTruthy cfg.email = true → optTruthy cfg.server = false →
      validateGenericAcmeConfig cfg =
        (false, [Event.setStatus (Status.Blocked "ACME server was not provided")])) ∧
    (optTruthy cfg.email = true → optTruthy cfg.server = true →
      emailIsValid (cfg.email.getD "") = false →
      validateGenericAcmeConfig cfg =
        (false, [Event.setStatus (Status.Blocked "Invalid email address")])) ∧
    (optTruthy cfg.email = true → optTruthy cfg.server = true →
      emailIsValid (cfg.email.getD "") = true →
      serverIsValid (cfg.server.getD "") = false →
      validateGenericAcmeConfig cfg =
        (false, [Event.setStatus (Status.Blocked "Invalid ACME server")])) ∧
    ((validateGenericAcmeConfig cfg).1 = true →
      validateGenericAcmeConfig cfg = (true, [])) ∧
    ["Email address was not provided", "ACME server was not provided",
      "Invalid email address", "Invalid ACME server"].Pairwise (fun a b => a ≠ b) := by
  refine ⟨?_, ?_, ?_, ?_, ?_, ?_, by decide⟩ <;>
    (cases h1 : optTruthy cfg.email <;> cases h2 : optTruthy cfg.server <;>
      cases h3 : emailIsValid (cfg.email.getD "") <;>
      cases h4 : serverIsValid (cfg.server.getD "") <;>
      simp_all [validateGenericAcmeConfig])

/-- Witness for C3: a present but malformed email is rejected with the
dedicated message, with the earlier presence checks passing. -/
theorem validate_generic_acme_config_check_order_witness :
    validateGenericAcmeConfig invalidEmailCfg =
      (false, [Event.setStatus (Status.Blocked "Invalid email address")]) :=
  (validate_generic_acme_config_check_order invalidEmailCfg).2.2.2.1
    (by decide) (by decide) (by decide)

/-- Claim C4: the provider validator succeeds exactly when every required key
has a truthy value in the plugin mapping, and on failure it sets one Blocked
message listing the missing keys joined together. -/
theorem validate_gandi_livedns_lists_missing_keys (cfg : GandiConfig) :
    (validateGandiLivednsConfig cfg = some (true, []) ↔
      ∀ k ∈ requiredConfig, ∃ v,
        dictGet (pluginConfig cfg) k = some v ∧ optTruthy v = true) ∧
    (optTruthy cfg.gandi_api_key = false →
      validateGandiLivednsConfig cfg = some (false,
        [Event.setStatus (Status.Blocked
          "The following config options must be set: GANDIV5_API_KEY")])) := by
  by_cases hk : optTruthy cfg.gandi_api_key = true
  · constructor
    · simp [validateGandiLivednsConfig, missingConfig_eq, hk, requiredConfig, dictGet_apiKey]
    · intro hk2
      rw [hk] at hk2
      cases hk2
  · rw [Bool.not_eq_true] at hk
    constructor
    · simp [validateGandiLivednsConfig, missingConfig_eq, hk, requiredConfig, dictGet_apiKey]
    · intro _
      simp [validateGandiLivednsConfig, missingConfig_eq, hk]
      rfl

/-- Witness for C4 at a configuration whose api key is unset. -/
theorem validate_gandi_livedns_lists_missing_keys_witness :
    validateGandiLivednsConfig invalidCfg = some (false,
      [Event.setStatus (Status.Blocked
        "The following config options must be set: GANDIV5_API_KEY")]) :=
  (validate_gandi_livedns_lists_missing_keys invalidCfg).2 (by decide)

/-- Counterexample to claim C5 as stated: on a concrete fully-successful run
the CSR push occurs at trace index 1, strictly before the Maintenance status
set at index 2, so the handler does not set Maintenance before pushing the
CSR. -/
theorem csr_pushed_before_maintenance_counterexample :
    certCreationRequest demoCfg Status.Active true true "CSRPEM" "example.com"
      true demoFiles 7 = some demoTrace ∧
    demoTrace.findIdx isPushEvent = 1 ∧
    demoTrace.findIdx isMaintenanceEvent = 2 ∧
    demoTrace.findIdx isExecEvent = 3 := by
  refine ⟨by decide, by decide, by decide, by decide⟩

/-- Claim C5 (amended): on the execution path the handler pushes the CSR,
then sets Maintenance, then runs the external client, in that order; any
execution failure results in Blocked status and the handler stopping without
publishing. -/
theorem creation_request_push_maintenance_exec_order
    (cfg : GandiConfig) (init : Status) (csr csrSubject : String)
    (files : String → Option String) (relationId : Int)
    (hvalid : configValid cfg = true) (hlen : csrSubject.length ≤ 64) :
    ∃ evs, certCreationRequest cfg init true true csr csrSubject false files relationId =
        some evs ∧
      evs = [Event.setStatus Status.Active,
        Event.pushCSR csrPath csr,
        Event.setStatus (Status.Maintenance "Executing lego command"),
        Event.execLego ["lego", "--email", cfg.email.getD "", "--accept-tos",
          "--csr", csrPath, "--server", cfg.server.getD "", "--dns", "gandiv5", "run"]
          (pluginConfig cfg),
        Event.setStatus (Status.Blocked
          "Workload command execution failed, use `juju debug-log` for more information.")] ∧
      evs.findIdx isPushEvent = 1 ∧
      evs.findIdx isMaintenanceEvent = 2 ∧
      evs.findIdx isExecEvent = 3 ∧
      statusAfter init evs = Status.Blocked
        "Workload command execution failed, use `juju debug-log` for more information." ∧
      evs.all (fun e => !isPublishEvent e) = true := by
  refine ⟨_, ?_, rfl, rfl, rfl, rfl, rfl, rfl⟩
  simp [certCreationRequest, onConfigChanged_of_valid cfg hvalid, statusAfter,
    legoCmd_of_valid cfg hvalid, Nat.not_lt.mpr hlen]

/-- Witness for the amended C5 at a concrete valid configuration with a
failing lego run. -/
theorem creation_request_push_maintenance_exec_order_witness :
    configValid demoCfg = true ∧ ("example.com" : String).length ≤ 64 ∧
    (∃ evs, certCreationRequest demoCfg Status.Active true true "CSRPEM" "example.com"
        false demoFiles 7 = some evs ∧
      evs = [Event.setStatus Status.Active,
        Event.pushCSR csrPath "CSRPEM",
        Event.setStatus (Status.Maintenance "Executing lego command"),
        Event.execLego ["lego", "--email", demoCfg.email.getD "", "--accept-tos",
          "--csr", csrPath, "--server", demoCfg.server.getD "", "--dns", "gandiv5", "run"]
          (pluginConfig demoCfg),
        Event.setStatus (Status.Blocked
          "Workload command execution failed, use `juju debug-log` for more information.")] ∧
      evs.findIdx isPushEvent = 1 ∧
      evs.findIdx isMaintenanceEvent = 2 ∧
      evs.findIdx isExecEvent = 3 ∧
      statusAfter Status.Active evs = Status.Blocked
        "Workload command execution failed, use `juju debug-log` for more information." ∧
      evs.all (fun e => !isPublishEvent e) = true) :=
  ⟨by decide, by decide,
    creation_request_push_maintenance_exec_order demoCfg Status.Active "CSRPEM" "example.com"
      demoFiles 7 (by decide) (by decide)⟩

/-- Counterexample to claim C6 as stated: pulling a certificate file whose
content ends in a blank line yields a chain whose trailing element is the
empty string, so empty trailing blocks are not dropped. -/
theorem pull_retains_empty_trailing_block_counterexample :
    pullCertificatesFromWorkload trailingFiles "example.org" = some ["CERTA", ""] ∧
    (pullCertificatesFromWorkload trailingFiles "example.org").map
      (fun blocks => blocks.getLastD "x") = some "" := by
  refine ⟨by decide, by decide⟩

/-- Claim C6 (amended): the retriever reads the file at
`certsPath ++ subject ++ ".crt"` and splits its contents on blank-line
boundaries into a nonempty sequence of blocks that joins back to exactly the
file content; empty trailing blocks are retained, not dropped. -/
theorem pull_splits_file_on_blank_lines
    (files : String → Option String) (csrSubject content : String)
    (hfile : files (certsPath ++ csrSubject ++ ".crt") = some content) :
    pullCertificatesFromWorkload files csrSubject = some (splitDoubleNewline content) ∧
    joinDoubleNewline (splitDoubleNewline content) = content ∧
    splitDoubleNewline content ≠ [] := by
  refine ⟨by simp [pullCertificatesFromWorkload, hfile], ?_,
    splitDoubleNewline_ne_nil content⟩
  obtain ⟨data⟩ := content
  exact joinNN_splitNNGo data []

/-- Witness for the amended C6 at a concrete file with a trailing blank
line. -/
theorem pull_splits_file_on_blank_lines_witness :
    trailingFiles (certsPath ++ "example.org" ++ ".crt") = some "CERTA\n\n" ∧
    (pullCertificatesFromWorkload trailingFiles "example.org" =
      some (splitDoubleNewline "CERTA\n\n") ∧
    joinDoubleNewline (splitDoubleNewline "CERTA\n\n") = "CERTA\n\n" ∧
    splitDoubleNewline "CERTA\n\n" ≠ []) :=
  ⟨by decide,
    pull_splits_file_on_blank_lines trailingFiles "example.org" "CERTA\n\n" (by decide)⟩

/-- Claim C7: every creation request first re-runs the full configuration
validation (`_on_config_changed`); when the resulting status is not Active
the handler defers the event and stops with the validation status writes as
its only side effects: no CSR push, no lego execution, no publication. -/
theorem creation_request_defers_unless_active
    (cfg : GandiConfig) (init : Status) (isLeader canConnect : Bool)
    (csr csrSubject : String) (legoSucceeds : Bool)
    (files : String → Option String) (relationId : Int) (evs0 : List Event)
    (h0 : onConfigChanged cfg = some evs0)
    (hna : statusAfter init evs0 ≠ Status.Active) :
    certCreationRequest cfg init isLeader canConnect csr csrSubject legoSucceeds files relationId =
      some (evs0 ++ [Event.deferEvent]) ∧
    (evs0 ++ [Event.deferEvent]).any isDeferEvent = true ∧
    ∀ e ∈ evs0 ++ [Event.deferEvent],
      isPushEvent e = false ∧ isExecEvent e = false ∧ isPublishEvent e = false := by
  refine ⟨by simp [certCreationRequest, h0, hna], by simp [isDeferEvent], ?_⟩
  intro e he
  rcases List.mem_append.mp he with h1 | h2
  · obtain ⟨s, rfl⟩ := onConfigChanged_events cfg evs0 h0 e h1
    exact ⟨rfl, rfl, rfl⟩
  · simp only [List.mem_singleton] at h2
    subst h2
    exact ⟨rfl, rfl, rfl⟩

/-- Witness for C7 at a configuration whose required provider key is unset,
so validation leaves a Blocked status. -/
theorem creation_request_defers_unless_active_witness :
    onConfigChanged invalidCfg = some [Event.setStatus (Status.Blocked
      "The following config options must be set: GANDIV5_API_KEY")] ∧
    statusAfter Status.Active [Event.setStatus (Status.Blocked
      "The following config options must be set: GANDIV5_API_KEY")] ≠ Status.Active ∧
    (certCreationRequest invalidCfg Status.Active true true "CSRPEM" "example.com"
        true demoFiles 3 =
      some ([Event.setStatus (Status.Blocked
        "The following config options must be set: GANDIV5_API_KEY")] ++ [Event.deferEvent]) ∧
    ([Event.setStatus (Status.Blocked
      "The following config options must be set: GANDIV5_API_KEY")] ++ [Event.deferEvent]).any
      isDeferEvent = true ∧
    ∀ e ∈ [Event.setStatus (Status.Blocked
        "The following config options must be set: GANDIV5_API_KEY")] ++ [Event.deferEvent],
      isPushEvent e = false ∧ isExecEvent e = false ∧ isPublishEvent e = false) :=
  ⟨by decide, by decide,
    creation_request_defers_unless_active invalidCfg Status.Active true true "CSRPEM"
      "example.com" true demoFiles 3 _ (by decide) (by decide)⟩

/-- Claim C8: with valid config, on the leader, when the workload container
is unreachable the handler sets Waiting and defers; the trace contains no
lego execution and no publication, and the final status is not Blocked. -/
theorem creation_request_waits_when_container_unreachable
    (cfg : GandiConfig) (init : Status) (csr csrSubject : String)
    (legoSucceeds : Bool) (files : String → Option String) (relationId : Int)
    (hvalid : configValid cfg = true) :
    certCreationRequest cfg init true false csr csrSubject legoSucceeds files relationId =
      some [Event.setStatus Status.Active,
        Event.setStatus (Status.Waiting "Waiting for container to be ready"),
        Event.deferEvent] ∧
    statusAfter init [Event.setStatus Status.Active,
      Event.setStatus (Status.Waiting "Waiting for container to be ready"),
      Event.deferEvent] = Status.Waiting "Waiting for container to be ready" ∧
    ([Event.setStatus Status.Active,
      Event.setStatus (Status.Waiting "Waiting for container to be ready"),
      Event.deferEvent].any isDeferEvent) = true ∧
    ([Event.setStatus Status.Active,
      Event.setStatus (Status.Waiting "Waiting for container to be ready"),
      Event.deferEvent].all (fun e => !(isExecEvent e || isPublishEvent e))) = true ∧
    (∀ m, Status.Waiting "Waiting for container to be ready" ≠ Status.Blocked m) := by
  refine ⟨?_, rfl, rfl, rfl, ?_⟩
  · simp [certCreationRequest, onConfigChanged_of_valid cfg hvalid, statusAfter]
  · intro m h
    cases h

/-- Witness for C8 at a concrete valid configuration. -/
theorem creation_request_waits_when_container_unreachable_witness :
    configValid demoCfg = true ∧
    (certCreationRequest demoCfg Status.Active true false "CSRPEM" "example.com" true demoFiles 4 =
      some [Event.setStatus Status.Active,
        Event.setStatus (Status.Waiting "Waiting for container to be ready"),
        Event.deferEvent] ∧
    statusAfter Status.Active [Event.setStatus Status.Active,
      Event.setStatus (Status.Waiting "Waiting for container to be ready"),
      Event.deferEvent] = Status.Waiting "Waiting for container to be ready" ∧
    ([Event.setStatus Status.Active,
      Event.setStatus (Status.Waiting "Waiting for container to be ready"),
      Event.deferEvent].any isDeferEvent) = true ∧
    ([Event.setStatus Status.Active,
      Event.setStatus (Status.Waiting "Waiting for container to be ready"),
      Event.deferEvent].all (fun e => !(isExecEvent e || isPublishEvent e))) = true ∧
    (∀ m, Status.Waiting "Waiting for container to be ready" ≠ Status.Blocked m)) :=
  ⟨by decide,
    creation_request_waits_when_container_unreachable demoCfg Status.Active "CSRPEM"
      "example.com" true demoFiles 4 (by decide)⟩

/-- Claim C9: with config validation leaving the status Active, a non-leader
unit stops silently: the trace holds only the Active status written by the
validation itself, so the handler adds no status change, no CSR push, no lego
execution, no publication and no deferral. -/
theorem creation_request_non_leader_stops_silently
    (cfg : GandiConfig) (init : Status) (canConnect : Bool)
    (csr csrSubject : String) (legoSucceeds : Bool)
    (files : String → Option String) (relationId : Int)
    (hvalid : configValid cfg = true) :
    certCreationRequest cfg init false canConnect csr csrSubject legoSucceeds files relationId =
      some [Event.setStatus Status.Active] ∧
    statusAfter init [Event.setStatus Status.Active] = Status.Active ∧
    ([Event.setStatus Status.Active].all
      (fun e => !(isPushEvent e || isExecEvent e || isPublishEvent e || isDeferEvent e))) = true := by
  refine ⟨?_, rfl, rfl⟩
  simp [certCreationRequest, onConfigChanged_of_valid cfg hvalid, statusAfter]

/-- Witness for C9 at a concrete valid configuration. -/
theorem creation_request_non_leader_stops_silently_witness :
    configValid demoCfg = true ∧
    (certCreationRequest demoCfg Status.Active false true "CSRPEM" "example.com" true demoFiles 5 =
      some [Event.setStatus Status.Active] ∧
    statusAfter Status.Active [Event.setStatus Status.Active] = Status.Active ∧
    ([Event.setStatus Status.Active].all
      (fun e => !(isPushEvent e || isExecEvent e || isPublishEvent e || isDeferEvent e))) = true) :=
  ⟨by decide,
    creation_request_non_leader_stops_silently demoCfg Status.Active true "CSRPEM"
      "example.com" true demoFiles 5 (by decide)⟩

/-- Claim C10: the plugin mapping always contains `GANDIV5_API_KEY` (bound to
the possibly unset api-key value), so the provider validator's indexing is
total and never raises; when the key is unset the validator blocks instead of
crashing. -/
theorem plugin_config_always_contains_api_key (cfg : GandiConfig) :
    dictGet (pluginConfig cfg) "GANDIV5_API_KEY" = some cfg.gandi_api_key ∧
    missingConfig cfg ≠ none ∧
    validateGandiLivednsConfig cfg ≠ none ∧
    (optTruthy cfg.gandi_api_key = false →
      validateGandiLivednsConfig cfg = some (false,
        [Event.setStatus (Status.Blocked
          "The following config options must be set: GANDIV5_API_KEY")])) := by
  refine ⟨dictGet_apiKey cfg, by simp [missingConfig_eq], ?_, ?_⟩
  · by_cases hk : optTruthy cfg.gandi_api_key = true <;>
      simp_all [validateGandiLivednsConfig, missingConfig_eq]
  · intro hk
    simp [validateGandiLivednsConfig, missingConfig_eq, hk]
    rfl

/-- Witness for C10 at a configuration with the api key unset: the lookup
still succeeds and the validator blocks rather than raising. -/
theorem plugin_config_always_contains_api_key_witness :
    dictGet (pluginConfig invalidCfg) "GANDIV5_API_KEY" = some none ∧
    validateGandiLivednsConfig invalidCfg ≠ none ∧
    validateGandiLivednsConfig invalidCfg = some (false,
      [Event.setStatus (Status.Blocked
        "The following config options must be set: GANDIV5_API_KEY")]) :=
  ⟨(plugin_config_always_contains_api_key invalidCfg).1,
    (plugin_config_always_contains_api_key invalidCfg).2.2.1,
    (plugin_config_always_contains_api_key invalidCfg).2.2.2 (by decide)⟩
